import Mathlib

/-!
Verification of the mcp-unity screenshot capture pipeline and the scene
tool handlers, as a shallow embedding of the source files
`src/Editor/Tools/CaptureScreenshotTool.cs`,
`src/Server~/src/tools/createSceneTool.ts`,
`src/Server~/src/tools/deleteSceneTool.ts` and the load-scene tool.
-/

namespace McpUnity

/-- ASCII lowercase of a string, modelling the C# and JS ToLower calls on
the short identifier strings used by these tools. -/
def toLower (s : String) : String := ⟨s.data.map Char.toLower⟩

/-- JavaScript truthiness of an optional string parameter field: an absent
field and the empty string are both falsy. -/
def truthy : Option String → Bool
  | none => false
  | some s => !(s == "")

/-- JavaScript short-circuit or of a possibly absent string with a string
default, modelling expressions such as response.message or a fallback. -/
def jsOr (m : Option String) (d : String) : String :=
  match m with
  | none => d
  | some s => if s = "" then d else s

/-- Parameters accepted by the scene tools; only the two fields consulted
by the validation checks are modelled. -/
structure SceneToolParams where
  scenePath : Option String
  sceneName : Option String
deriving Repr, DecidableEq

/-- The response object returned by the Unity side of a sendRequest call. -/
structure UnityResponse where
  success : Bool
  message : Option String
  scenePath : Option String
deriving Repr, DecidableEq

/-- Outcome of a tool handler on the orchestration side: a normal return,
a thrown validation error, or a thrown tool execution error. -/
inductive ToolOutcome where
  | ok (scenePath : Option String)
  | validationError (msg : String)
  | executionError (msg : String)
deriving Repr, DecidableEq

/-- Whether a tool outcome is a thrown validation error. -/
def ToolOutcome.isValidationError : ToolOutcome → Bool
  | .validationError _ => true
  | _ => false

/-- The toolHandler of createSceneTool.ts: it checks only sceneName, and
only reaches sendRequest when that check passes.  The second component
counts the sendRequest calls issued. -/
def createSceneToolHandler (p : SceneToolParams) (resp : UnityResponse) :
    ToolOutcome × Nat :=
  if !(truthy p.sceneName) then
    (.validationError "sceneName must be provided", 0)
  else if resp.success then
    (.ok resp.scenePath, 1)
  else
    (.executionError (jsOr resp.message "Failed to create scene"), 1)

/-- The toolHandler of the load_scene tool: validation requires scenePath
or sceneName before the single sendRequest call. -/
def loadSceneToolHandler (p : SceneToolParams) (resp : UnityResponse) :
    ToolOutcome × Nat :=
  if !(truthy p.scenePath) && !(truthy p.sceneName) then
    (.validationError "Either scenePath or sceneName must be provided", 0)
  else if resp.success then
    (.ok resp.scenePath, 1)
  else
    (.executionError (jsOr resp.message "Failed to load scene"), 1)

/-- The toolHandler of deleteSceneTool.ts: validation requires scenePath
or sceneName before the single sendRequest call. -/
def deleteSceneToolHandler (p : SceneToolParams) (resp : UnityResponse) :
    ToolOutcome × Nat :=
  if !(truthy p.scenePath) && !(truthy p.sceneName) then
    (.validationError "Either scenePath or sceneName must be provided", 0)
  else if resp.success then
    (.ok resp.scenePath, 1)
  else
    (.executionError (jsOr resp.message "Failed to delete scene"), 1)

/-- Modelled from the spec: McpUnitySocketHandler.CreateErrorResponse is not
under src/; the spec says a Failure response carries a message and an error
code, so the model packages the two strings passed at each call site. -/
structure ErrorResponse where
  message : String
  code : String
deriving Repr, DecidableEq

/-- Modelled from the spec: CreateErrorResponse builds the failure response
from a diagnostic message and an error code. -/
def createErrorResponse (message code : String) : ErrorResponse :=
  { message := message, code := code }

/-- The method-specific fields of a successful capture_screenshot response,
as assembled at the end of CaptureSceneViewScreenshot. -/
structure SuccessResponse where
  filePath : String
  timestamp : String
  resolution : String
  captureMethod : String
  captureType : String
  withGizmos : Bool
  withLabels : Bool
  mode : String
deriving Repr, DecidableEq

/-- Result of one capture attempt: a success response or a failure
response. -/
inductive CaptureResult where
  | success (r : SuccessResponse)
  | failure (e : ErrorResponse)
deriving Repr, DecidableEq

/-- The engine state mutated during a capture: the Scene View overlay flag,
the camera render target and the globally active render texture.  Render
textures are identified by numbers, none standing for null. -/
structure EngineState where
  drawGizmos : Bool
  cameraTarget : Option Nat
  activeRT : Option Nat
deriving Repr, DecidableEq

/-- Identifier of the temporary render texture handed out by
RenderTexture.GetTemporary during one capture. -/
def tempRTId : Nat := 999

/-- Environment of one capture invocation: what the editor offers (view,
camera, initial engine state) and which engine calls throw during the run.
Each throwing call is modelled by a flag; the string after each flag name
is the exception message used for it. -/
structure CaptureEnv where
  hasSceneView : Bool
  hasCamera : Bool
  initGizmos : Bool
  initCameraTarget : Option Nat
  initActiveRT : Option Nat
  paramParseThrows : Bool
  mkdirThrows : Bool
  renderThrows : Bool
  readPixelsThrows : Bool
  encodeThrows : Bool
  writeThrows : Bool
  timestamp : String
deriving Repr, DecidableEq

/-- Observable outcome of CaptureSceneViewScreenshot: the returned result,
the engine state after the call, the overlay flag right after the
Configuring switch ran (none when Configuring never ran), and whether the
temporary surface was allocated, released, rendered to, and the file
written. -/
structure CapOut where
  result : CaptureResult
  finalState : EngineState
  configObs : Option Bool
  allocObs : Bool
  releasedObs : Bool
  renderObs : Bool
  writeObs : Bool
deriving Repr, DecidableEq

/-- The Configuring switch of CaptureSceneViewScreenshot: basic clears the
overlay flag, labels and debug set it, custom copies withGizmos, and any
other mode string falls through the switch leaving the current value. -/
def appliedGizmos (mode : String) (withGizmos current : Bool) : Bool :=
  if mode = "basic" then false
  else if mode = "labels" then true
  else if mode = "debug" then true
  else if mode = "custom" then withGizmos
  else current

/-- CaptureSceneViewScreenshot from CaptureScreenshotTool.cs, with the
try/finally structure of the source made explicit: the view lookup, the
directory creation inside the outer try, the gizmo snapshot and Configuring
switch, the camera null check inside the gizmo-restoring try, the render
texture redirection inside the target-restoring try, and the outer catch
that converts any escaped exception into a capture_failed response. -/
def captureSceneViewScreenshot (mode : String) (withGizmos withLabels : Bool)
    (width height : Nat) (env : CaptureEnv) : CapOut :=
  let s0 : EngineState :=
    { drawGizmos := env.initGizmos, cameraTarget := env.initCameraTarget,
      activeRT := env.initActiveRT }
  if !env.hasSceneView then
    { result := .failure (createErrorResponse
        "No Scene View available for screenshot capture" "no_scene_view"),
      finalState := s0, configObs := none, allocObs := false,
      releasedObs := false, renderObs := false, writeObs := false }
  else if env.mkdirThrows then
    { result := .failure (createErrorResponse
        "Failed to capture screenshot: mkdir" "capture_failed"),
      finalState := s0, configObs := none, allocObs := false,
      releasedObs := false, renderObs := false, writeObs := false }
  else
    let filePath := "Temp/MCPScreenshots/MCP_SceneView_" ++ mode ++ "_"
      ++ env.timestamp ++ ".png"
    let currentGizmos := s0.drawGizmos
    let s1 := { s0 with
      drawGizmos := appliedGizmos mode withGizmos s0.drawGizmos }
    if !env.hasCamera then
      let s2 := { s1 with drawGizmos := currentGizmos }
      { result := .failure (createErrorResponse
          "Scene View camera not available" "no_camera"),
        finalState := s2, configObs := some s1.drawGizmos, allocObs := false,
        releasedObs := false, renderObs := false, writeObs := false }
    else
      let previousTarget := s1.cameraTarget
      let previousActive := s1.activeRT
      let s2 := { s1 with
        cameraTarget := some tempRTId, activeRT := some tempRTId }
      let inner : Except String Unit :=
        if env.renderThrows then .error "render"
        else if env.readPixelsThrows then .error "readPixels"
        else if env.encodeThrows then .error "encode"
        else if env.writeThrows then .error "write"
        else .ok ()
      let s3 := { s2 with
        cameraTarget := previousTarget, activeRT := previousActive }
      let s4 := { s3 with drawGizmos := currentGizmos }
      match inner with
      | .error msg =>
        { result := .failure (createErrorResponse
            ("Failed to capture screenshot: " ++ msg) "capture_failed"),
          finalState := s4, configObs := some s1.drawGizmos, allocObs := true,
          releasedObs := true, renderObs := !env.renderThrows,
          writeObs := false }
      | .ok _ =>
        { result := .success
            { filePath := filePath, timestamp := env.timestamp,
              resolution := toString width ++ "x" ++ toString height,
              captureMethod := "Scene View",
              captureType := "MCP " ++ mode ++ " capture",
              withGizmos := s4.drawGizmos,
              withLabels := withLabels, mode := mode },
          finalState := s4, configObs := some s1.drawGizmos, allocObs := true,
          releasedObs := true, renderObs := true, writeObs := true }

/-- Parameters of a capture_screenshot request as received by ExecuteAsync,
each field absent when the caller omitted it. -/
structure CaptureParams where
  mode : Option String
  withGizmos : Option Bool
  withLabels : Option Bool
  resolution : Option String
deriving Repr, DecidableEq

/-- The resolution switch of ExecuteAsync on the lowercased resolution
string: only 1440p and 4k are recognised, everything else takes the
default branch. -/
def resolveResolution (resolution : String) : Nat × Nat :=
  if resolution = "1440p" then (2560, 1440)
  else if resolution = "4k" then (3840, 2160)
  else (1920, 1080)

/-- Observable outcome of the ExecuteAsync closure: the values passed to
tcs.TrySetResult in order, the capture outcome when the capture routine
ran, the pixel dimensions chosen, and the normalised mode string. -/
structure ExecOut where
  tcsFulfillments : List CaptureResult
  cap : Option CapOut
  dims : Option (Nat × Nat)
  modeUsed : Option String
deriving Repr, DecidableEq

/-- The delayCall closure of ExecuteAsync: parameter extraction with
defaults and lowercasing, the resolution switch, the call into
CaptureSceneViewScreenshot, and the catch that fulfills the completion
handle with a capture_exception response when the closure throws outside
the capture routine (modelled by paramParseThrows, such as a mode value
that is not a string). -/
def executeAsync (p : CaptureParams) (env : CaptureEnv) : ExecOut :=
  if env.paramParseThrows then
    { tcsFulfillments := [.failure (createErrorResponse
        "Exception during screenshot capture: parse" "capture_exception")],
      cap := none, dims := none, modeUsed := none }
  else
    let mode := (p.mode.map toLower).getD "basic"
    let withGizmos := p.withGizmos.getD true
    let withLabels := p.withLabels.getD false
    let resolution := (p.resolution.map toLower).getD "1080p"
    let wh := resolveResolution resolution
    let out := captureSceneViewScreenshot mode withGizmos withLabels
      wh.1 wh.2 env
    { tcsFulfillments := [out.result], cap := some out,
      dims := some wh, modeUsed := some mode }

/-! ## Helper lemmas about the capture routine -/

/-- The engine state after any call to CaptureSceneViewScreenshot equals
the initial engine state: every exit path runs the restoring finally
blocks (or never mutated anything). -/
theorem finalState_eq (mode : String) (g l : Bool) (w h : Nat)
    (env : CaptureEnv) :
    (captureSceneViewScreenshot mode g l w h env).finalState =
      { drawGizmos := env.initGizmos, cameraTarget := env.initCameraTarget,
        activeRT := env.initActiveRT } := by
  rcases env with ⟨hv, hc, ig, ict, irt, pp, mk, rt, rp, et, wt, ts⟩
  cases hv <;> cases mk <;> cases hc <;> cases rt <;> cases rp <;> cases et <;>
    cases wt <;> rfl

/-- The overlay flag observed right after Configuring is the mode-derived
flag exactly when Configuring ran, i.e. when a view was found and the
directory creation did not throw. -/
theorem configObs_spec (mode : String) (g l : Bool) (w h : Nat)
    (env : CaptureEnv) :
    (captureSceneViewScreenshot mode g l w h env).configObs =
      if env.hasSceneView && !env.mkdirThrows then
        some (appliedGizmos mode g env.initGizmos)
      else none := by
  rcases env with ⟨hv, hc, ig, ict, irt, pp, mk, rt, rp, et, wt, ts⟩
  cases hv <;> cases mk <;> cases hc <;> cases rt <;> cases rp <;> cases et <;>
    cases wt <;> rfl

/-- The temporary render surface is released exactly when it was
allocated. -/
theorem releasedObs_eq_allocObs (mode : String) (g l : Bool) (w h : Nat)
    (env : CaptureEnv) :
    (captureSceneViewScreenshot mode g l w h env).releasedObs =
      (captureSceneViewScreenshot mode g l w h env).allocObs := by
  rcases env with ⟨hv, hc, ig, ict, irt, pp, mk, rt, rp, et, wt, ts⟩
  cases hv <;> cases mk <;> cases hc <;> cases rt <;> cases rp <;> cases et <;>
    cases wt <;> rfl

/-- Any success response returned by the capture routine reports the
restored overlay flag, i.e. the initial one. -/
theorem success_withGizmos_eq (mode : String) (g l : Bool) (w h : Nat)
    (env : CaptureEnv) (r : SuccessResponse)
    (hs : (captureSceneViewScreenshot mode g l w h env).result = .success r) :
    r.withGizmos = env.initGizmos := by
  rcases env with ⟨hv, hc, ig, ict, irt, pp, mk, rt, rp, et, wt, ts⟩
  cases hv <;> cases mk <;> cases hc <;> cases rt <;> cases rp <;> cases et <;>
    cases wt <;> simp only [captureSceneViewScreenshot] at hs <;>
    first
      | exact (CaptureResult.noConfusion hs)
      | (cases hs; rfl)

/-! ## Concrete environments for witnesses and counterexamples -/

/-- A fully healthy capture environment: a view and camera exist, nothing
throws, and the overlay flag starts out set. -/
def okEnv : CaptureEnv :=
  { hasSceneView := true, hasCamera := true, initGizmos := true,
    initCameraTarget := some 1, initActiveRT := some 2,
    paramParseThrows := false, mkdirThrows := false, renderThrows := false,
    readPixelsThrows := false, encodeThrows := false, writeThrows := false,
    timestamp := "2025-01-01_00-00-00-000" }

/-- The healthy environment except that the file write throws. -/
def writeThrowEnv : CaptureEnv := { okEnv with writeThrows := true }

/-- The capture run used by the C1 witness: Configuring runs, then the
file write throws during Persisting. -/
def c1run : CapOut :=
  captureSceneViewScreenshot "basic" true false 1920 1080 writeThrowEnv

/-! ## Claim theorems -/

/-- C1: for every capture invocation that reaches Configuring (a Scene
View was found), the overlay flag after the call equals its value before,
on every exit path: success, no-camera failure, and exceptions during
Rendering or Persisting. -/
theorem C1_overlay_restored_on_every_exit (p : CaptureParams)
    (env : CaptureEnv) (c : CapOut)
    (hc : (executeAsync p env).cap = some c)
    (hreach : c.configObs.isSome = true) :
    c.finalState.drawGizmos = env.initGizmos := by
  unfold executeAsync at hc
  by_cases hpp : env.paramParseThrows = true
  · simp [hpp] at hc
  · simp [hpp] at hc
    rw [← hc, finalState_eq]

/-- Witness for C1 at a concrete run whose Persisting step throws. -/
theorem C1_overlay_restored_on_every_exit_witness :
    (executeAsync ⟨some "basic", none, none, none⟩ writeThrowEnv).cap
        = some c1run ∧
    c1run.configObs.isSome = true ∧
    c1run.finalState.drawGizmos = writeThrowEnv.initGizmos :=
  ⟨by decide, by decide,
    C1_overlay_restored_on_every_exit ⟨some "basic", none, none, none⟩
      writeThrowEnv c1run (by decide) (by decide)⟩

/-- The environment of the C5 counterexample: a view exists, the camera
does not, the overlay flag starts out set, and nothing throws. -/
def noCameraEnv : CaptureEnv := { okEnv with hasCamera := false }

/-- The capture run of the C5 counterexample. -/
def noCameraRun : CapOut :=
  captureSceneViewScreenshot "basic" true false 1920 1080 noCameraEnv

/-- C5 counterexample: a no-camera failure happens after the Configuring
switch has already cleared the overlay flag (basic mode, initial flag
set), so engine state has been mutated at that point, contrary to the
claim that nothing has been mutated when target resolution fails. -/
theorem C5_counterexample :
    noCameraRun.result = .failure (createErrorResponse
      "Scene View camera not available" "no_camera") ∧
    noCameraEnv.initGizmos = true ∧
    noCameraRun.configObs = some false :=
  ⟨by decide, by decide, by decide⟩

/-- C5 (amended): a missing Scene View fails with a descriptive error
before anything is mutated; a missing camera also fails with a
descriptive error and no rendering step runs, but the check happens only
after Configuring has applied the mode-derived overlay flag, which the
restore guard then puts back before the failure is returned. -/
theorem C5_target_failure_paths (mode : String) (g l : Bool) (w h : Nat)
    (env : CaptureEnv) :
    (env.hasSceneView = false →
      (captureSceneViewScreenshot mode g l w h env).result =
        .failure (createErrorResponse
          "No Scene View available for screenshot capture" "no_scene_view") ∧
      (captureSceneViewScreenshot mode g l w h env).configObs = none ∧
      (captureSceneViewScreenshot mode g l w h env).allocObs = false ∧
      (captureSceneViewScreenshot mode g l w h env).renderObs = false) ∧
    (env.hasSceneView = true → env.mkdirThrows = false →
      env.hasCamera = false →
      (captureSceneViewScreenshot mode g l w h env).result =
        .failure (createErrorResponse
          "Scene View camera not available" "no_camera") ∧
      (captureSceneViewScreenshot mode g l w h env).allocObs = false ∧
      (captureSceneViewScreenshot mode g l w h env).renderObs = false ∧
      (captureSceneViewScreenshot mode g l w h env).configObs =
        some (appliedGizmos mode g env.initGizmos) ∧
      (captureSceneViewScreenshot mode g l w h env).finalState.drawGizmos =
        env.initGizmos) := by
  rcases env with ⟨hv, hc, ig, ict, irt, pp, mk, rt, rp, et, wt, ts⟩
  constructor
  · intro h
    subst h
    exact ⟨rfl, rfl, rfl, rfl⟩
  · intro h1 h2 h3
    subst h1; subst h2; subst h3
    exact ⟨rfl, rfl, rfl, rfl, rfl⟩

/-- Witness for C5 (amended) at concrete no-view and no-camera runs. -/
theorem C5_target_failure_paths_witness :
    ((captureSceneViewScreenshot "basic" true false 1920 1080
        { okEnv with hasSceneView := false }).result =
      .failure (createErrorResponse
        "No Scene View available for screenshot capture" "no_scene_view")) ∧
    (noCameraRun.result = .failure (createErrorResponse
        "Scene View camera not available" "no_camera") ∧
      noCameraRun.finalState.drawGizmos = noCameraEnv.initGizmos) :=
  ⟨((C5_target_failure_paths "basic" true false 1920 1080
      { okEnv with hasSceneView := false }).1 (by decide)).1,
   ⟨((C5_target_failure_paths "basic" true false 1920 1080 noCameraEnv).2
      (by decide) (by decide) (by decide)).1,
    ((C5_target_failure_paths "basic" true false 1920 1080 noCameraEnv).2
      (by decide) (by decide) (by decide)).2.2.2.2⟩⟩

/-- C6: once the temporary render surface has been allocated, every exit
from the Rendering and Persisting steps restores the camera render target
and the previously active render texture and releases the temporary
surface, including when read-back, encoding or the file write throws. -/
theorem C6_render_state_restored (mode : String) (g l : Bool) (w h : Nat)
    (env : CaptureEnv)
    (hA : (captureSceneViewScreenshot mode g l w h env).allocObs = true) :
    (captureSceneViewScreenshot mode g l w h env).finalState.cameraTarget =
        env.initCameraTarget ∧
    (captureSceneViewScreenshot mode g l w h env).finalState.activeRT =
        env.initActiveRT ∧
    (captureSceneViewScreenshot mode g l w h env).releasedObs = true := by
  refine ⟨?_, ?_, ?_⟩
  · rw [finalState_eq]
  · rw [finalState_eq]
  · rw [releasedObs_eq_allocObs, hA]

/-- Witness for C6 at a concrete run whose pixel read-back throws. -/
theorem C6_render_state_restored_witness :
    (captureSceneViewScreenshot "basic" true false 1920 1080
        { okEnv with readPixelsThrows := true }).allocObs = true ∧
    (captureSceneViewScreenshot "basic" true false 1920 1080
        { okEnv with readPixelsThrows := true }).finalState.cameraTarget =
      ({ okEnv with readPixelsThrows := true } : CaptureEnv).initCameraTarget ∧
    (captureSceneViewScreenshot "basic" true false 1920 1080
        { okEnv with readPixelsThrows := true }).releasedObs = true :=
  ⟨by decide,
   (C6_render_state_restored "basic" true false 1920 1080
      { okEnv with readPixelsThrows := true } (by decide)).1,
   (C6_render_state_restored "basic" true false 1920 1080
      { okEnv with readPixelsThrows := true } (by decide)).2.2⟩

/-- C8: with mode basic, labels or debug, the overlay flag applied during
capture does not depend on the withGizmos and withLabels parameters: two
invocations differing only in those parameters apply the same flag. -/
theorem C8_gizmo_param_noninterference (m : Option String)
    (g1 l1 g2 l2 : Option Bool) (r : Option String) (env : CaptureEnv)
    (hm : (m.map toLower).getD "basic" = "basic" ∨
          (m.map toLower).getD "basic" = "labels" ∨
          (m.map toLower).getD "basic" = "debug") :
    ((executeAsync ⟨m, g1, l1, r⟩ env).cap.map CapOut.configObs) =
    ((executeAsync ⟨m, g2, l2, r⟩ env).cap.map CapOut.configObs) := by
  by_cases hpp : env.paramParseThrows = true
  · simp [executeAsync, hpp]
  · simp only [executeAsync, hpp, if_false, Bool.false_eq_true,
      Option.map_some']
    rw [configObs_spec, configObs_spec]
    rcases hm with h | h | h <;> rw [h] <;> simp [appliedGizmos]

/-- Witness for C8 at mode labels with opposite gizmo parameters. -/
theorem C8_gizmo_param_noninterference_witness :
    ((executeAsync ⟨some "labels", some true, some true, none⟩ okEnv).cap.map
        CapOut.configObs) =
    ((executeAsync ⟨some "labels", some false, some false, none⟩ okEnv).cap.map
        CapOut.configObs) :=
  C8_gizmo_param_noninterference (some "labels") (some true) (some true)
    (some false) (some false) none okEnv (by decide)

/-- The success response of the concrete healthy basic-mode run. -/
def okResp : SuccessResponse :=
  { filePath :=
      "Temp/MCPScreenshots/MCP_SceneView_basic_2025-01-01_00-00-00-000.png",
    timestamp := "2025-01-01_00-00-00-000", resolution := "1920x1080",
    captureMethod := "Scene View", captureType := "MCP basic capture",
    withGizmos := true, withLabels := false, mode := "basic" }

/-- C9: the withGizmos field of a successful response equals the overlay
flag read after restoration, which is the original pre-capture value, not
the mode-derived flag that was in effect while rendering. -/
theorem C9_response_reports_restored_gizmos (mode : String) (g l : Bool)
    (w h : Nat) (env : CaptureEnv) (r : SuccessResponse)
    (hs : (captureSceneViewScreenshot mode g l w h env).result = .success r) :
    r.withGizmos = env.initGizmos ∧
    r.withGizmos =
      (captureSceneViewScreenshot mode g l w h env).finalState.drawGizmos := by
  have h1 := success_withGizmos_eq mode g l w h env r hs
  refine ⟨h1, ?_⟩
  rw [h1, finalState_eq]

/-- Witness for C9 at a healthy basic-mode run where the mode-derived flag
(false) differs from the reported one (the restored original, true). -/
theorem C9_response_reports_restored_gizmos_witness :
    (captureSceneViewScreenshot "basic" true false 1920 1080 okEnv).result =
      .success okResp ∧
    okResp.withGizmos = okEnv.initGizmos ∧
    (captureSceneViewScreenshot "basic" true false 1920 1080
        okEnv).configObs = some false :=
  ⟨by decide,
   (C9_response_reports_restored_gizmos "basic" true false 1920 1080 okEnv
      okResp (by decide)).1,
   by decide⟩

/-- The healthy environment except that parameter extraction in the
closure throws (a parameter value of the wrong shape). -/
def parseThrowEnv : CaptureEnv := { okEnv with paramParseThrows := true }

/-- C2 counterexample: create_scene called with a scenePath but no
sceneName fails validation with zero transport writes, although the claim
says a call providing at least one of scenePath or sceneName passes
validation and sends a request. -/
theorem C2_counterexample :
    truthy (some "Assets/Scenes/Main.unity") = true ∧
    createSceneToolHandler ⟨some "Assets/Scenes/Main.unity", none⟩
        ⟨true, none, none⟩ =
      (.validationError "sceneName must be provided", 0) :=
  ⟨by decide, by decide⟩

/-- C2 (amended): load_scene and delete_scene pass validation and issue
exactly one transport write when scenePath or sceneName is provided, and
fail with a validation error and zero writes when neither is; create_scene
instead requires sceneName specifically: without it the call fails
validation with zero writes even when scenePath is provided, and with it
the request is sent. -/
theorem C2_scene_tool_validation (p : SceneToolParams)
    (resp : UnityResponse) :
    ((truthy p.scenePath || truthy p.sceneName) = true →
      (loadSceneToolHandler p resp).2 = 1 ∧
      (loadSceneToolHandler p resp).1.isValidationError = false ∧
      (deleteSceneToolHandler p resp).2 = 1 ∧
      (deleteSceneToolHandler p resp).1.isValidationError = false) ∧
    ((truthy p.scenePath || truthy p.sceneName) = false →
      loadSceneToolHandler p resp =
        (.validationError "Either scenePath or sceneName must be provided",
          0) ∧
      deleteSceneToolHandler p resp =
        (.validationError "Either scenePath or sceneName must be provided",
          0)) ∧
    (truthy p.sceneName = true →
      (createSceneToolHandler p resp).2 = 1 ∧
      (createSceneToolHandler p resp).1.isValidationError = false) ∧
    (truthy p.sceneName = false →
      createSceneToolHandler p resp =
        (.validationError "sceneName must be provided", 0)) := by
  cases hsp : truthy p.scenePath <;> cases hsn : truthy p.sceneName <;>
    cases hss : resp.success <;>
    simp_all [loadSceneToolHandler, deleteSceneToolHandler,
      createSceneToolHandler, ToolOutcome.isValidationError]

/-- Witness for C2 (amended) at concrete calls: load_scene with only a
scenePath sends one request, delete_scene with neither parameter fails
validation with zero writes, create_scene with a sceneName sends one
request. -/
theorem C2_scene_tool_validation_witness :
    (truthy (some "Assets/S.unity") || truthy (none : Option String))
        = true ∧
    (loadSceneToolHandler ⟨some "Assets/S.unity", none⟩
        ⟨true, none, none⟩).2 = 1 ∧
    deleteSceneToolHandler ⟨none, none⟩ ⟨true, none, none⟩ =
      (.validationError "Either scenePath or sceneName must be provided",
        0) ∧
    (createSceneToolHandler ⟨none, some "Main"⟩ ⟨true, none, none⟩).2 = 1 :=
  ⟨by decide,
   ((C2_scene_tool_validation ⟨some "Assets/S.unity", none⟩
      ⟨true, none, none⟩).1 (by decide)).1,
   ((C2_scene_tool_validation ⟨none, none⟩ ⟨true, none, none⟩).2.1
      (by decide)).2,
   ((C2_scene_tool_validation ⟨none, some "Main"⟩ ⟨true, none, none⟩).2.2.1
      (by decide)).1⟩

/-- The pixel dimensions chosen by a non-throwing closure are those of the
resolution switch applied to the lowercased resolution parameter with its
1080p default. -/
theorem dims_eq (p : CaptureParams) (env : CaptureEnv)
    (hpp : env.paramParseThrows = false) :
    (executeAsync p env).dims =
      some (resolveResolution ((p.resolution.map toLower).getD "1080p")) := by
  simp [executeAsync, hpp]

/-- C3: resolution 4K maps to exactly 3840 by 2160, 1440p to 2560 by
1440, 1080p to 1920 by 1080, and any unrecognised resolution string falls
back to the 1080p default instead of failing. -/
theorem C3_resolution_mapping (p : CaptureParams) (env : CaptureEnv)
    (hpp : env.paramParseThrows = false) :
    (p.resolution = some "4K" →
      (executeAsync p env).dims = some (3840, 2160)) ∧
    (p.resolution = some "1440p" →
      (executeAsync p env).dims = some (2560, 1440)) ∧
    (p.resolution = some "1080p" →
      (executeAsync p env).dims = some (1920, 1080)) ∧
    (∀ s, p.resolution = some s → toLower s ≠ "1440p" → toLower s ≠ "4k" →
      (executeAsync p env).dims = some (1920, 1080)) := by
  refine ⟨fun h4 => ?_, fun h14 => ?_, fun h10 => ?_,
    fun s hs h1 h2 => ?_⟩
  · rw [dims_eq p env hpp, h4]; decide
  · rw [dims_eq p env hpp, h14]; decide
  · rw [dims_eq p env hpp, h10]; decide
  · rw [dims_eq p env hpp, hs]
    simp [resolveResolution, h1, h2]

/-- Witness for C3 at the 4K preset and an unrecognised string. -/
theorem C3_resolution_mapping_witness :
    (executeAsync ⟨none, none, none, some "4K"⟩ okEnv).dims =
      some (3840, 2160) ∧
    (executeAsync ⟨none, none, none, some "720p"⟩ okEnv).dims =
      some (1920, 1080) :=
  ⟨(C3_resolution_mapping ⟨none, none, none, some "4K"⟩ okEnv rfl).1 rfl,
   (C3_resolution_mapping ⟨none, none, none, some "720p"⟩ okEnv rfl).2.2.2
     "720p" rfl (by decide) (by decide)⟩

/-- C4: every execution of the capture task closure fulfills its
completion handle exactly once: with the capture result on normal return,
and with a caught capture_exception failure response when the closure
throws. -/
theorem C4_handle_fulfilled_exactly_once (p : CaptureParams)
    (env : CaptureEnv) :
    (executeAsync p env).tcsFulfillments.length = 1 ∧
    (env.paramParseThrows = false →
      ∃ c, (executeAsync p env).cap = some c ∧
        (executeAsync p env).tcsFulfillments = [c.result]) ∧
    (env.paramParseThrows = true →
      (executeAsync p env).tcsFulfillments =
        [.failure (createErrorResponse
          "Exception during screenshot capture: parse"
          "capture_exception")]) := by
  by_cases hpp : env.paramParseThrows = true
  · simp [executeAsync, hpp]
  · simp [executeAsync, hpp]

/-- Witness for C4 at a throwing closure and at a normal one. -/
theorem C4_handle_fulfilled_exactly_once_witness :
    (executeAsync ⟨none, none, none, none⟩
        parseThrowEnv).tcsFulfillments.length = 1 ∧
    (executeAsync ⟨none, none, none, none⟩ parseThrowEnv).tcsFulfillments =
      [.failure (createErrorResponse
        "Exception during screenshot capture: parse" "capture_exception")] ∧
    (executeAsync ⟨none, none, none, none⟩ okEnv).tcsFulfillments.length
      = 1 :=
  ⟨(C4_handle_fulfilled_exactly_once ⟨none, none, none, none⟩
      parseThrowEnv).1,
   (C4_handle_fulfilled_exactly_once ⟨none, none, none, none⟩
      parseThrowEnv).2.2 (by decide),
   (C4_handle_fulfilled_exactly_once ⟨none, none, none, none⟩ okEnv).1⟩

/-- C7 counterexample: four failure runs whose error codes are pairwise
distinct, so the failure codes of the capture tool do not fit in a set of
exactly three codes. -/
theorem C7_counterexample :
    (executeAsync ⟨some "basic", none, none, none⟩
        { okEnv with hasSceneView := false }).tcsFulfillments =
      [.failure ⟨"No Scene View available for screenshot capture",
        "no_scene_view"⟩] ∧
    (executeAsync ⟨some "basic", none, none, none⟩
        noCameraEnv).tcsFulfillments =
      [.failure ⟨"Scene View camera not available", "no_camera"⟩] ∧
    (executeAsync ⟨some "basic", none, none, none⟩
        writeThrowEnv).tcsFulfillments =
      [.failure ⟨"Failed to capture screenshot: write", "capture_failed"⟩] ∧
    (executeAsync ⟨some "basic", none, none, none⟩
        parseThrowEnv).tcsFulfillments =
      [.failure ⟨"Exception during screenshot capture: parse",
        "capture_exception"⟩] ∧
    ("no_scene_view" ≠ "no_camera" ∧
     "no_scene_view" ≠ "capture_failed" ∧
     "no_scene_view" ≠ "capture_exception" ∧
     "no_camera" ≠ "capture_failed" ∧
     "no_camera" ≠ "capture_exception" ∧
     "capture_failed" ≠ "capture_exception") :=
  ⟨by decide, by decide, by decide, by decide, by decide⟩

/-- C7 (amended): every failure response carries a nonempty message and
an error code, and the code is one of exactly four codes: no_scene_view,
no_camera, capture_failed for an exception inside the capture routine,
and capture_exception for an exception in the closure outside it. -/
theorem C7_failure_codes (p : CaptureParams) (env : CaptureEnv)
    (e : ErrorResponse)
    (hf : (executeAsync p env).tcsFulfillments = [.failure e]) :
    e.message ≠ "" ∧
    (e.code = "no_scene_view" ∨ e.code = "no_camera" ∨
     e.code = "capture_failed" ∨ e.code = "capture_exception") := by
  rcases env with ⟨hv, hc, ig, ict, irt, pp, mk, rt, rp, et, wt, ts⟩
  cases pp <;> cases hv <;> cases mk <;> cases hc <;> cases rt <;>
    cases rp <;> cases et <;> cases wt <;>
    simp_all [executeAsync, captureSceneViewScreenshot,
      createErrorResponse] <;>
    simp_all [← hf]

/-- Witness for C7 (amended) at the concrete write-throwing run. -/
theorem C7_failure_codes_witness :
    (createErrorResponse "Failed to capture screenshot: write"
        "capture_failed").message ≠ "" ∧
    ((createErrorResponse "Failed to capture screenshot: write"
        "capture_failed").code = "no_scene_view" ∨
     (createErrorResponse "Failed to capture screenshot: write"
        "capture_failed").code = "no_camera" ∨
     (createErrorResponse "Failed to capture screenshot: write"
        "capture_failed").code = "capture_failed" ∨
     (createErrorResponse "Failed to capture screenshot: write"
        "capture_failed").code = "capture_exception") :=
  C7_failure_codes ⟨some "basic", none, none, none⟩ writeThrowEnv
    (createErrorResponse "Failed to capture screenshot: write"
      "capture_failed") (by decide)

/-- C10: a mode string outside basic, labels, debug and custom after
lowercasing is neither rejected nor normalised to basic: on a healthy run
the capture succeeds, the Configuring switch leaves the overlay flag at
its current value, and the lowercased mode string is carried into the
mode and captureType response fields. -/
theorem C10_unrecognized_mode (s : String) (g l : Option Bool)
    (r : Option String) (env : CaptureEnv)
    (h1 : toLower s ≠ "basic") (h2 : toLower s ≠ "labels")
    (h3 : toLower s ≠ "debug") (h4 : toLower s ≠ "custom")
    (hok : env.hasSceneView = true ∧ env.hasCamera = true ∧
      env.paramParseThrows = false ∧ env.mkdirThrows = false ∧
      env.renderThrows = false ∧ env.readPixelsThrows = false ∧
      env.encodeThrows = false ∧ env.writeThrows = false) :
    (executeAsync ⟨some s, g, l, r⟩ env).modeUsed = some (toLower s) ∧
    ((executeAsync ⟨some s, g, l, r⟩ env).cap.map CapOut.configObs) =
      some (some env.initGizmos) ∧
    ∃ resp, (executeAsync ⟨some s, g, l, r⟩ env).tcsFulfillments =
        [.success resp] ∧
      resp.mode = toLower s ∧
      resp.captureType = "MCP " ++ toLower s ++ " capture" := by
  rcases env with ⟨hv, hc, ig, ict, irt, pp, mk, rt, rp, et, wt, ts⟩
  obtain ⟨e1, e2, e3, e4, e5, e6, e7, e8⟩ := hok
  subst e1; subst e2; subst e3; subst e4
  subst e5; subst e6; subst e7; subst e8
  simp [executeAsync, captureSceneViewScreenshot, appliedGizmos,
    h1, h2, h3, h4]

/-- Witness for C10 at the unrecognised mode string Verbose. -/
theorem C10_unrecognized_mode_witness :
    (executeAsync ⟨some "Verbose", none, none, none⟩ okEnv).modeUsed =
      some (toLower "Verbose") ∧
    ((executeAsync ⟨some "Verbose", none, none, none⟩ okEnv).cap.map
        CapOut.configObs) = some (some okEnv.initGizmos) :=
  ⟨(C10_unrecognized_mode "Verbose" none none none okEnv (by decide)
      (by decide) (by decide) (by decide)
      ⟨rfl, rfl, rfl, rfl, rfl, rfl, rfl, rfl⟩).1,
   (C10_unrecognized_mode "Verbose" none none none okEnv (by decide)
      (by decide) (by decide) (by decide)
      ⟨rfl, rfl, rfl, rfl, rfl, rfl, rfl, rfl⟩).2.1⟩

end McpUnity
